import Mathlib

/-!
Shallow embedding of the GDP dashboard script (src/streamlit_app.py).

The script loads a wide CSV table (one column per year 1960..2022, keyed by
a country-code column), reshapes it with pandas melt into a tidy table of
(Country Code, Year, GDP) observations, filters it by a user selection, and
renders per-country growth metrics.

Modelling decisions:
  * A CSV cell is `Option ℚ`: `none` is an empty cell, which pandas reads
    as NaN (the missing sentinel).
  * Pandas/numpy float values flowing through the metric loop are modelled
    by `PyF`: NaN, signed infinity, or an exact rational.  Exact rational
    arithmetic stands in for binary floating point; numpy scalar division
    by zero yields infinity or NaN (with a warning), never an exception.
  * The year column produced by melt holds the textual column headers; the
    script converts them with pd.to_numeric, modelled by a decimal parser
    over the characters of the header.
  * pandas melt with absent value_vars raises a KeyError; `.iat[0]` on an
    empty selection raises an IndexError.  Fallible steps live in
    `Except String`.
  * The metric for-loop runs sequentially and an uncaught exception aborts
    the whole pass: modelled by structural recursion over the selection in
    `Except`, stopping at the first error.
-/

/-- A pandas/numpy floating-point scalar: NaN, a signed infinity, or a
finite value (modelled as an exact rational). -/
inductive PyF where
  | nan : PyF
  | inf (pos : Bool) : PyF
  | fin (q : ℚ) : PyF
deriving DecidableEq

/-- Conversion of a CSV cell to the float that pandas stores for it:
an empty cell becomes NaN. -/
def toPyF : Option ℚ → PyF
  | none => PyF.nan
  | some q => PyF.fin q

/-- Division of numpy float scalars: NaN propagates, x/0 is a signed
infinity (or NaN for 0/0), finite by finite is exact rational division. -/
def pyDiv : PyF → PyF → PyF
  | PyF.nan, _ => PyF.nan
  | _, PyF.nan => PyF.nan
  | PyF.inf _, PyF.inf _ => PyF.nan
  | PyF.inf s, PyF.fin b => if b < 0 then PyF.inf (!s) else PyF.inf s
  | PyF.fin _, PyF.inf _ => PyF.fin 0
  | PyF.fin a, PyF.fin b =>
      if b = 0 then (if a = 0 then PyF.nan else PyF.inf (decide (0 < a)))
      else PyF.fin (a / b)

/-- Round a rational to the nearest integer, ties to even — the rounding
used by Python float formatting. -/
def rhe (q : ℚ) : ℤ :=
  if q - q.floor > 1 / 2 then q.floor + 1
  else if q - q.floor < 1 / 2 then q.floor
  else if q.floor % 2 = 0 then q.floor else q.floor + 1

/-- Two-digit zero padding for the fractional part of a formatted number. -/
def pad2 (n : ℕ) : String :=
  if n < 10 then "0" ++ toString n else toString n

/-- Formatting of a finite float with two decimal digits and an x suffix. -/
def fmt2xFin (q : ℚ) : String :=
  (if rhe (q * 100) < 0 then "-" else "") ++
    toString ((rhe (q * 100)).natAbs / 100) ++ "." ++
    pad2 ((rhe (q * 100)).natAbs % 100) ++ "x"

/-- Embedding of the growth format expression: two decimal digits
followed by an x suffix; NaN and infinity format the way Python floats
print. -/
def fmt2x : PyF → String
  | PyF.nan => "nanx"
  | PyF.inf true => "infx"
  | PyF.inf false => "-infx"
  | PyF.fin q => fmt2xFin q

/-- Insert thousands separators into a reversed digit list. -/
def commaRev : List Char → List Char
  | [] => []
  | a :: b :: c :: d :: rest => a :: b :: c :: ',' :: commaRev (d :: rest)
  | l => l

/-- Decimal rendering of a natural number with thousands separators. -/
def commaFmt (m : ℕ) : String :=
  String.mk ((commaRev (toString m).data.reverse).reverse)

/-- Formatting of a finite float with thousands separators and zero
decimal digits, followed by the B USD suffix. -/
def fmtBFin (q : ℚ) : String :=
  (if rhe q < 0 then "-" else "") ++ commaFmt (rhe q).natAbs ++ "B USD"

/-- Embedding of the metric value format expression: thousands separators,
zero decimal digits, and a B USD suffix. -/
def fmtB : PyF → String
  | PyF.nan => "nanB USD"
  | PyF.inf true => "infB USD"
  | PyF.inf false => "-infB USD"
  | PyF.fin q => fmtBFin q

/-- A tidy observation row of the reshaped table: Country Code, Year, GDP.
The GDP cell is `none` when the source cell was empty (NaN). -/
structure Obs where
  code : String
  year : ℕ
  gdp : Option ℚ
deriving DecidableEq

/-- A row of the raw wide-format CSV table: the country code plus the
cell found under each column header. -/
structure RawRow where
  code : String
  cells : String → Option ℚ

/-- The raw wide-format CSV table: its column headers and its rows. -/
structure RawTable where
  cols : List String
  rows : List RawRow

/-- MIN_YEAR from load_gdp_data. -/
def MIN_YEAR : ℕ := 1960

/-- MAX_YEAR from load_gdp_data. -/
def MAX_YEAR : ℕ := 2022

/-- The years 1960..2022 enumerated by range(MIN_YEAR, MAX_YEAR + 1). -/
def yearsRange : List ℕ := List.range' MIN_YEAR (MAX_YEAR + 1 - MIN_YEAR)

/-- The melt value_vars: the textual year column names
[str(year) for year in range(MIN_YEAR, MAX_YEAR + 1)]. -/
def valueVars : List String := yearsRange.map toString

/-- Embedding of pandas melt as called in load_gdp_data: requires every
value_var column to be present (else KeyError) and emits, variable-major,
one (Country Code, Year-as-text, GDP) triple per (year column, row) pair. -/
def melt (raw : RawTable) : Except String (List (String × String × Option ℚ)) :=
  if valueVars.all (fun v => raw.cols.contains v) then
    Except.ok (valueVars.flatMap (fun v =>
      raw.rows.map (fun r => (r.code, v, r.cells v))))
  else Except.error "KeyError"

/-- Value of a decimal digit character, none for a non-digit. -/
def digitVal (c : Char) : Option ℕ :=
  if '0' ≤ c ∧ c ≤ '9' then some (c.toNat - '0'.toNat) else none

/-- Decimal parsing of a year header, as pd.to_numeric reads it: every
character must be a digit and the value is accumulated base 10. -/
def parseNat (s : String) : Option ℕ :=
  match s.data with
  | [] => none
  | l => l.foldl (fun acc c =>
      match acc, digitVal c with
      | some n, some d => some (n * 10 + d)
      | _, _ => none) (some 0)

/-- Embedding of pd.to_numeric on the Year column: each textual year is
parsed to an integer, failing (ValueError) on an unparseable header. -/
def to_numeric : List (String × String × Option ℚ) → Except String (List Obs)
  | [] => Except.ok []
  | t :: l =>
    match parseNat t.2.1 with
    | some y => (to_numeric l).map (fun obs => Obs.mk t.1 y t.2.2 :: obs)
    | none => Except.error "ValueError"

/-- Embedding of load_gdp_data applied to an already-read raw table:
melt the year columns into Year and GDP, then convert Year to integer. -/
def load_gdp_data (raw : RawTable) : Except String (List Obs) :=
  melt raw >>= to_numeric

/-- Embedding of the filtered_gdp_df expression: keep the observations
whose country code is selected and whose year lies in the slider range. -/
def filtered_gdp_df (gdp : List Obs) (selected : List String)
    (from_year to_year : ℕ) : List Obs :=
  gdp.filter (fun o =>
    selected.contains o.code && decide (from_year ≤ o.year) &&
      decide (o.year ≤ to_year))

/-- Embedding of gdp_df[gdp_df[Year] == y]: the rows of the full table at
one year. -/
def year_data (gdp : List Obs) (y : ℕ) : List Obs :=
  gdp.filter (fun o => o.year == y)

/-- Embedding of rows[rows[Country Code] == country][GDP].iat[0]: the GDP
cell of the first row for the country, raising IndexError when no row
matches. -/
def gdpAt (rows : List Obs) (country : String) : Except String (Option ℚ) :=
  match rows.filter (fun o => o.code == country) with
  | [] => Except.error "IndexError"
  | o :: _ => Except.ok o.gdp

/-- One rendered metric card: its label, value and delta strings. -/
structure Metric where
  label : String
  value : String
  delta : String
deriving DecidableEq

/-- Embedding of one iteration of the metric loop for one country: look up
the boundary-year GDP values in the full table, scale by 1e9, branch on
math.isnan of the first value, and format label, value and delta. -/
def computeMetric (gdp : List Obs) (country : String)
    (from_year to_year : ℕ) : Except String Metric := do
  let fv ← gdpAt (year_data gdp from_year) country
  let lv ← gdpAt (year_data gdp to_year) country
  let first_gdp := pyDiv (toPyF fv) (PyF.fin (10 ^ 9))
  let last_gdp := pyDiv (toPyF lv) (PyF.fin (10 ^ 9))
  let growth := if first_gdp = PyF.nan then "N/A"
    else fmt2x (pyDiv last_gdp first_gdp)
  Except.ok (Metric.mk (country ++ " GDP") (fmtB last_gdp) growth)

/-- Embedding of the whole metric for-loop over the selected countries:
sequential, and the first uncaught exception aborts the pass. -/
def renderMetrics (gdp : List Obs) (selected : List String)
    (from_year to_year : ℕ) : Except String (List Metric) :=
  match selected with
  | [] => Except.ok []
  | c :: rest =>
    match computeMetric gdp c from_year to_year with
    | Except.ok m => (renderMetrics gdp rest from_year to_year).map
        (fun ms => m :: ms)
    | Except.error e => Except.error e

/-- The tidy observation list that a successful load produces: one
observation per (year, source row) pair, variable-major. -/
def tidy (raw : RawTable) : List Obs :=
  yearsRange.flatMap (fun y =>
    raw.rows.map (fun r => Obs.mk r.code y (r.cells (toString y))))

/-! Evaluation lemmas: Rat arithmetic does not reduce in the kernel, so
concrete evaluation of the formatting functions goes through these. -/

/-- Rounding an integer-valued rational returns that integer. -/
lemma rhe_intCast (n : ℤ) : rhe ((n : ℚ)) = n := by
  have hf : ((n : ℚ)).floor = n := by
    rw [show ((n : ℚ)).floor = ⌊(n : ℚ)⌋ from rfl, Int.floor_intCast]
  unfold rhe
  rw [hf]
  norm_num

/-- Rounding a small nonnegative rational returns zero. -/
lemma rhe_small (q : ℚ) (h0 : 0 ≤ q) (h1 : q < 1 / 2) : rhe q = 0 := by
  have hf : q.floor = 0 := by
    rw [show q.floor = ⌊q⌋ from rfl, Int.floor_eq_zero_iff]
    exact ⟨h0, by linarith⟩
  unfold rhe
  rw [hf]
  push_cast
  rw [sub_zero]
  rw [if_neg (by linarith), if_pos h1]

/-- Evaluation of the growth format on a rational whose value times 100 is
the natural number n. -/
lemma fmt2x_eval (q : ℚ) (n : ℕ) (h : q * 100 = (n : ℚ)) :
    fmt2x (PyF.fin q) =
      toString (n / 100) ++ "." ++ pad2 (n % 100) ++ "x" := by
  have h1 : rhe (q * 100) = (n : ℤ) := by
    rw [h, show ((n : ℕ) : ℚ) = (((n : ℕ) : ℤ) : ℚ) by push_cast; ring,
      rhe_intCast]
  have h2 : ¬ ((n : ℤ) < 0) := by omega
  show fmt2xFin q = _
  unfold fmt2xFin
  rw [h1, if_neg h2, Int.natAbs_ofNat]
  simp

/-- Evaluation of the value format on an integer-valued rational. -/
lemma fmtB_eval (q : ℚ) (n : ℕ) (h : q = (n : ℚ)) :
    fmtB (PyF.fin q) = commaFmt n ++ "B USD" := by
  have h1 : rhe q = (n : ℤ) := by
    rw [h, show ((n : ℕ) : ℚ) = (((n : ℕ) : ℤ) : ℚ) by push_cast; ring,
      rhe_intCast]
  have h2 : ¬ ((n : ℤ) < 0) := by omega
  show fmtBFin q = _
  unfold fmtBFin
  rw [h1, if_neg h2, Int.natAbs_ofNat]
  simp

/-- Evaluation of the value format on a small nonnegative rational, such
as a raw GDP of a few hundred units scaled down by 1e9. -/
lemma fmtB_small (q : ℚ) (h0 : 0 ≤ q) (h1 : q < 1 / 2) :
    fmtB (PyF.fin q) = "0B USD" := by
  show fmtBFin q = _
  unfold fmtBFin
  rw [rhe_small q h0 h1]
  decide

/-! Characterization of the loader output. -/

/-- Every generated year header parses back to its year. -/
lemma parse_years : ∀ y ∈ yearsRange, parseNat (toString y) = some y := by
  decide

/-- Splitting to_numeric over an append whose first part succeeds. -/
lemma to_numeric_ok_append (l1 l2 : List (String × String × Option ℚ))
    (obs1 : List Obs) (h1 : to_numeric l1 = Except.ok obs1) :
    to_numeric (l1 ++ l2) = (to_numeric l2).map (fun b => obs1 ++ b) := by
  induction l1 generalizing obs1 with
  | nil =>
    simp only [to_numeric, Except.ok.injEq] at h1
    subst h1
    simp only [List.nil_append]
    cases h : to_numeric l2 <;> rfl
  | cons t l1 ih =>
    simp only [List.cons_append]
    cases hp : parseNat t.2.1 with
    | none =>
      simp only [to_numeric, hp] at h1
      exact Except.noConfusion h1
    | some y =>
      simp only [to_numeric, hp] at h1 ⊢
      cases hq : to_numeric l1 with
      | error e =>
        rw [hq] at h1
        exact Except.noConfusion h1
      | ok a =>
        rw [hq] at h1
        simp only [Except.map, Except.ok.injEq] at h1
        subst h1
        rw [ih a hq]
        cases hr : to_numeric l2 <;> rfl

/-- to_numeric on the block of rows melt emits for one parseable year. -/
lemma to_numeric_block (rows : List RawRow) (y : ℕ)
    (hy : parseNat (toString y) = some y) :
    to_numeric (rows.map (fun r => (r.code, toString y, r.cells (toString y)))) =
      Except.ok (rows.map (fun r => Obs.mk r.code y (r.cells (toString y)))) := by
  induction rows with
  | nil => rfl
  | cons r rs ih =>
    simp only [List.map_cons]
    show to_numeric (_ :: _) = _
    simp only [to_numeric, hy]
    rw [ih]
    rfl

/-- to_numeric on the full melt output, year block by year block. -/
lemma to_numeric_flat (ys : List ℕ) (rows : List RawRow)
    (hp : ∀ y ∈ ys, parseNat (toString y) = some y) :
    to_numeric ((ys.map toString).flatMap (fun v =>
        rows.map (fun r => (r.code, v, r.cells v)))) =
      Except.ok (ys.flatMap (fun y =>
        rows.map (fun r => Obs.mk r.code y (r.cells (toString y))))) := by
  induction ys with
  | nil => rfl
  | cons y ys ih =>
    simp only [List.map_cons, List.flatMap_cons]
    rw [to_numeric_ok_append _ _ _ (to_numeric_block rows y (hp y (by simp)))]
    rw [ih (fun z hz => hp z (by simp [hz]))]
    rfl

/-- A load over a table with all expected year columns succeeds and
returns exactly the tidy reshaped observations. -/
lemma load_ok (raw : RawTable)
    (h : ∀ v ∈ valueVars, raw.cols.contains v = true) :
    load_gdp_data raw = Except.ok (tidy raw) := by
  unfold load_gdp_data melt
  rw [if_pos (List.all_eq_true.mpr h)]
  show to_numeric _ = _
  unfold valueVars tidy
  exact to_numeric_flat yearsRange raw.rows parse_years

/-! Characterization of one metric computation. -/

/-- Unfolding of computeMetric when both boundary lookups succeed. -/
lemma computeMetric_eq (gdp : List Obs) (c : String) (fy ty : ℕ)
    (fv lv : Option ℚ)
    (h1 : gdpAt (year_data gdp fy) c = Except.ok fv)
    (h2 : gdpAt (year_data gdp ty) c = Except.ok lv) :
    computeMetric gdp c fy ty = Except.ok (Metric.mk (c ++ " GDP")
      (fmtB (pyDiv (toPyF lv) (PyF.fin (10 ^ 9))))
      (if pyDiv (toPyF fv) (PyF.fin (10 ^ 9)) = PyF.nan then "N/A"
       else fmt2x (pyDiv (pyDiv (toPyF lv) (PyF.fin (10 ^ 9)))
         (pyDiv (toPyF fv) (PyF.fin (10 ^ 9)))))) := by
  unfold computeMetric
  rw [h1, h2]
  rfl

/-- computeMetric raises when the from-year lookup raises. -/
lemma computeMetric_error_first (gdp : List Obs) (c : String) (fy ty : ℕ)
    (e : String) (h1 : gdpAt (year_data gdp fy) c = Except.error e) :
    computeMetric gdp c fy ty = Except.error e := by
  unfold computeMetric
  rw [h1]
  rfl

/-- computeMetric raises when the to-year lookup raises. -/
lemma computeMetric_error_second (gdp : List Obs) (c : String) (fy ty : ℕ)
    (fv : Option ℚ) (e : String)
    (h1 : gdpAt (year_data gdp fy) c = Except.ok fv)
    (h2 : gdpAt (year_data gdp ty) c = Except.error e) :
    computeMetric gdp c fy ty = Except.error e := by
  unfold computeMetric
  rw [h1, h2]
  rfl

/-- Scaling a finite value by the 1e9 display divisor. -/
lemma pyDiv_fin_scale (a : ℚ) :
    pyDiv (PyF.fin a) (PyF.fin (10 ^ 9)) = PyF.fin (a / 10 ^ 9) := by
  simp only [pyDiv]
  rw [if_neg (by norm_num : ¬ ((10 : ℚ) ^ 9) = 0)]

/-- The 1e9 display scaling cancels in the growth ratio. -/
lemma pyDiv_cancel (a b : ℚ) (ha : a ≠ 0) :
    pyDiv (PyF.fin (b / 10 ^ 9)) (PyF.fin (a / 10 ^ 9)) = PyF.fin (b / a) := by
  have hE : ((10 : ℚ) ^ 9) ≠ 0 := by norm_num
  have hae : a / 10 ^ 9 ≠ 0 := div_ne_zero ha hE
  simp only [pyDiv]
  rw [if_neg hae]
  congr 1
  field_simp

/-- A finite value is not the NaN sentinel. -/
lemma fin_ne_nan (q : ℚ) : PyF.fin q ≠ PyF.nan := fun h => PyF.noConfusion h

/-- The growth format never produces the string that the isnan branch
produces. -/
lemma fmt2x_ne_NA (x : PyF) : fmt2x x ≠ "N/A" := by
  cases x with
  | nan => decide
  | inf b => cases b <;> decide
  | fin q =>
    show fmt2xFin q ≠ "N/A"
    unfold fmt2xFin
    intro h
    have hd := congrArg String.data h
    simp only [String.data_append] at hd
    have hlast := congrArg List.getLast? hd
    simp [List.getLast?_append] at hlast
    rw [show ('.' :: ((pad2 ((rhe (q * 100)).natAbs % 100)).data ++ ['x'])) =
        ('.' :: (pad2 ((rhe (q * 100)).natAbs % 100)).data) ++ ['x'] from rfl,
      List.getLast?_concat] at hlast
    exact absurd hlast (by decide)

/-- C1: when both boundary GDP values are present and the from-year value
is nonzero, the growth metric is the ratio gdp_at_year_to / gdp_at_year_from
formatted with two decimal digits and an x suffix, the 1e9 display scaling
cancelling in the ratio; the value card shows the to-year GDP scaled by
1e9. -/
theorem C1_growth_ratio (gdp : List Obs) (c : String) (fy ty : ℕ) (a b : ℚ)
    (h1 : gdpAt (year_data gdp fy) c = Except.ok (some a))
    (h2 : gdpAt (year_data gdp ty) c = Except.ok (some b))
    (ha : a ≠ 0) :
    computeMetric gdp c fy ty = Except.ok (Metric.mk (c ++ " GDP")
      (fmtB (PyF.fin (b / 10 ^ 9))) (fmt2x (PyF.fin (b / a)))) := by
  rw [computeMetric_eq gdp c fy ty (some a) (some b) h1 h2]
  rw [show toPyF (some a) = PyF.fin a from rfl,
    show toPyF (some b) = PyF.fin b from rfl,
    pyDiv_fin_scale a, pyDiv_fin_scale b]
  rw [if_neg (fin_ne_nan (a / 10 ^ 9))]
  rw [pyDiv_cancel a b ha]

/-- C1 witness: gdp(DEU, 1960) = 100 and gdp(DEU, 2022) = 450 give the
growth string 4.50x. -/
theorem C1_growth_ratio_witness :
    computeMetric [Obs.mk "DEU" 1960 (some 100), Obs.mk "DEU" 2022 (some 450)]
      "DEU" 1960 2022 = Except.ok (Metric.mk "DEU GDP" "0B USD" "4.50x") := by
  have h := C1_growth_ratio
    [Obs.mk "DEU" 1960 (some 100), Obs.mk "DEU" 2022 (some 450)]
    "DEU" 1960 2022 100 450 rfl rfl (by norm_num)
  rw [h]
  rw [fmtB_small ((450 : ℚ) / 10 ^ 9) (by positivity) (by norm_num)]
  rw [fmt2x_eval ((450 : ℚ) / 100) 450 (by norm_num)]
  rfl

/-- C2: a missing (NaN) from-year value makes the growth read N/A with no
division error raised, while a present from-year value — zero included —
takes the numeric branch, whose formatted ratio is never the string N/A. -/
theorem C2_missing_vs_zero (gdp : List Obs) (c : String) (fy ty : ℕ)
    (lv : Option ℚ) (a : ℚ) :
    (gdpAt (year_data gdp fy) c = Except.ok none →
      gdpAt (year_data gdp ty) c = Except.ok lv →
      computeMetric gdp c fy ty = Except.ok (Metric.mk (c ++ " GDP")
        (fmtB (pyDiv (toPyF lv) (PyF.fin (10 ^ 9)))) "N/A"))
    ∧ (gdpAt (year_data gdp fy) c = Except.ok (some a) →
      gdpAt (year_data gdp ty) c = Except.ok lv →
      ∃ m : Metric, computeMetric gdp c fy ty = Except.ok m ∧
        m.delta = fmt2x (pyDiv (pyDiv (toPyF lv) (PyF.fin (10 ^ 9)))
          (PyF.fin (a / 10 ^ 9))) ∧ m.delta ≠ "N/A") := by
  constructor
  · intro h1 h2
    rw [computeMetric_eq gdp c fy ty none lv h1 h2]
    rw [show toPyF none = PyF.nan from rfl]
    rw [show pyDiv PyF.nan (PyF.fin (10 ^ 9)) = PyF.nan from rfl]
    rw [if_pos rfl]
  · intro h1 h2
    rw [computeMetric_eq gdp c fy ty (some a) lv h1 h2]
    rw [show toPyF (some a) = PyF.fin a from rfl, pyDiv_fin_scale a]
    rw [if_neg (fin_ne_nan (a / 10 ^ 9))]
    exact ⟨_, rfl, rfl, fmt2x_ne_NA _⟩

/-- C2 witness: gdp(XYZ, 1960) missing with gdp(XYZ, 2022) = 200 reads
N/A without error, while gdp(ZRO, 1960) = 0 takes the numeric branch. -/
theorem C2_missing_vs_zero_witness :
    (computeMetric
      [Obs.mk "XYZ" 1960 none, Obs.mk "XYZ" 2022 (some 200),
       Obs.mk "ZRO" 1960 (some 0), Obs.mk "ZRO" 2022 (some 200)]
      "XYZ" 1960 2022 = Except.ok (Metric.mk "XYZ GDP" "0B USD" "N/A"))
    ∧ (∃ m : Metric, computeMetric
        [Obs.mk "XYZ" 1960 none, Obs.mk "XYZ" 2022 (some 200),
         Obs.mk "ZRO" 1960 (some 0), Obs.mk "ZRO" 2022 (some 200)]
        "ZRO" 1960 2022 = Except.ok m ∧
        m.delta = fmt2x (pyDiv (pyDiv (toPyF (some 200)) (PyF.fin (10 ^ 9)))
          (PyF.fin ((0 : ℚ) / 10 ^ 9))) ∧ m.delta ≠ "N/A") := by
  constructor
  · have h := (C2_missing_vs_zero
      [Obs.mk "XYZ" 1960 none, Obs.mk "XYZ" 2022 (some 200),
       Obs.mk "ZRO" 1960 (some 0), Obs.mk "ZRO" 2022 (some 200)]
      "XYZ" 1960 2022 (some 200) 0).1 rfl rfl
    rw [h, show toPyF (some (200 : ℚ)) = PyF.fin 200 from rfl,
      pyDiv_fin_scale 200,
      fmtB_small ((200 : ℚ) / 10 ^ 9) (by positivity) (by norm_num)]
    rfl
  · exact (C2_missing_vs_zero
      [Obs.mk "XYZ" 1960 none, Obs.mk "XYZ" 2022 (some 200),
       Obs.mk "ZRO" 1960 (some 0), Obs.mk "ZRO" 2022 (some 200)]
      "ZRO" 1960 2022 (some 200) 0).2 rfl rfl

/-- C10: the isnan branch inspects only the from-year value, so a present
from-year value with a missing (NaN) to-year value is not reported as N/A:
the NaN propagates through the ratio and both displayed strings are
NaN-formatted. -/
theorem C10_nan_to_year (gdp : List Obs) (c : String) (fy ty : ℕ) (a : ℚ)
    (h1 : gdpAt (year_data gdp fy) c = Except.ok (some a))
    (h2 : gdpAt (year_data gdp ty) c = Except.ok none) :
    computeMetric gdp c fy ty =
      Except.ok (Metric.mk (c ++ " GDP") "nanB USD" "nanx") ∧
      ("nanx" : String) ≠ "N/A" ∧ ("nanB USD" : String) ≠ "N/A" := by
  refine ⟨?_, by decide, by decide⟩
  rw [computeMetric_eq gdp c fy ty (some a) none h1 h2]
  rw [show toPyF (some a) = PyF.fin a from rfl, pyDiv_fin_scale a]
  rw [show toPyF none = PyF.nan from rfl]
  rw [show pyDiv PyF.nan (PyF.fin (10 ^ 9)) = PyF.nan from rfl]
  rw [if_neg (fin_ne_nan (a / 10 ^ 9))]
  rfl

/-- C10 witness: gdp(ABC, 1960) = 100 with gdp(ABC, 2022) missing renders
nan-formatted value and delta strings, not N/A. -/
theorem C10_nan_to_year_witness :
    computeMetric [Obs.mk "ABC" 1960 (some 100), Obs.mk "ABC" 2022 none]
      "ABC" 1960 2022 =
      Except.ok (Metric.mk "ABC GDP" "nanB USD" "nanx") ∧
      ("nanx" : String) ≠ "N/A" ∧ ("nanB USD" : String) ≠ "N/A" :=
  C10_nan_to_year [Obs.mk "ABC" 1960 (some 100), Obs.mk "ABC" 2022 none]
    "ABC" 1960 2022 100 rfl rfl

/-! The filter contract. -/

/-- Bridging Bool contains with membership for strings. -/
lemma contains_mem_iff (L : List String) (x : String) :
    L.contains x = true ↔ x ∈ L := by
  constructor
  · intro h
    rcases List.contains_iff_exists_mem_beq.mp h with ⟨b, hb, hbeq⟩
    exact (eq_of_beq hbeq) ▸ hb
  · intro h
    exact List.contains_iff_exists_mem_beq.mpr ⟨x, h, beq_self_eq_true x⟩

/-- countP splits over a pointwise-disjoint disjunction of predicates. -/
lemma countP_disjoint (l : List Obs) (p r : Obs → Bool)
    (h : ∀ x ∈ l, ¬(p x = true ∧ r x = true)) :
    l.countP (fun x => p x || r x) = l.countP p + l.countP r := by
  induction l with
  | nil => rfl
  | cons a l ih =>
    simp only [List.countP_cons]
    rw [ih (fun x hx => h x (List.mem_cons_of_mem a hx))]
    by_cases hp : p a = true
    · have hr : ¬ r a = true := fun hr => h a (List.mem_cons_self a l) ⟨hp, hr⟩
      simp [hp, hr]
      omega
    · by_cases hr : r a = true <;> simp [hp, hr] <;> omega

/-- With one matching row per selected country at year y, the count of
rows selected by country list and year equals the number of selected
countries. -/
lemma count_one_per (gdp : List Obs) (y : ℕ) : ∀ sel : List String,
    sel.Nodup →
    (∀ c ∈ sel, (gdp.filter (fun o => o.code == c && o.year == y)).length = 1) →
    gdp.countP (fun o => sel.contains o.code && (o.year == y)) = sel.length := by
  intro sel
  induction sel with
  | nil =>
    intro _ _
    simp [List.countP_eq_length_filter]
  | cons c rest ih =>
    intro hnd h1
    have hsplit : ∀ o ∈ gdp,
        ((c :: rest).contains o.code && (o.year == y)) = true ↔
        ((o.code == c && (o.year == y)) ||
          (rest.contains o.code && (o.year == y))) = true := by
      intro o ho
      rw [List.contains_cons]
      cases o.code == c <;> cases rest.contains o.code <;>
        cases o.year == y <;> simp
    rw [List.countP_congr hsplit]
    have hdisj : ∀ o ∈ gdp,
        ¬((o.code == c && (o.year == y)) = true ∧
          (rest.contains o.code && (o.year == y)) = true) := by
      intro o ho ⟨hl, hr⟩
      have hc : o.code = c := eq_of_beq (Bool.and_elim_left hl)
      have hm : o.code ∈ rest :=
        (contains_mem_iff rest o.code).mp (Bool.and_elim_left hr)
      rw [hc] at hm
      exact (List.nodup_cons.mp hnd).1 hm
    rw [countP_disjoint gdp _ _ hdisj]
    rw [List.countP_eq_length_filter,
      h1 c (List.mem_cons_self c rest)]
    rw [ih (List.nodup_cons.mp hnd).2
      (fun z hz => h1 z (List.mem_cons_of_mem c hz))]
    simp [Nat.add_comm]

/-- C3: the filtered table holds exactly the observations whose country is
selected and whose year lies in the inclusive slider range; an empty
selection yields an empty result with no error; and with equal slider
bounds and one source row per selected country it holds exactly one
observation per selected country. -/
theorem C3_filter_contract (gdp : List Obs) (sel : List String)
    (fy ty y : ℕ) :
    (∀ o : Obs, o ∈ filtered_gdp_df gdp sel fy ty ↔
      (o ∈ gdp ∧ o.code ∈ sel ∧ fy ≤ o.year ∧ o.year ≤ ty))
    ∧ filtered_gdp_df gdp [] fy ty = []
    ∧ (sel.Nodup →
        (∀ c ∈ sel,
          (gdp.filter (fun o => o.code == c && o.year == y)).length = 1) →
        (filtered_gdp_df gdp sel y y).length = sel.length) := by
  refine ⟨?_, ?_, ?_⟩
  · intro o
    simp only [filtered_gdp_df, List.mem_filter, Bool.and_eq_true,
      decide_eq_true_eq, contains_mem_iff]
    tauto
  · simp [filtered_gdp_df]
  · intro hnd h1
    have hpt : ∀ o ∈ gdp,
        (sel.contains o.code && decide (y ≤ o.year) && decide (o.year ≤ y)) =
        (sel.contains o.code && (o.year == y)) := by
      intro o ho
      by_cases h : o.year = y
      · simp [h]
      · have hb : (o.year == y) = false := by simp [h]
        rw [hb]
        cases hc : sel.contains o.code <;> simp [hc] <;> omega
    unfold filtered_gdp_df
    rw [List.filter_congr hpt]
    rw [← List.countP_eq_length_filter]
    exact count_one_per gdp y sel hnd h1

/-- C3 witness: a three-observation table filtered to one year over two
selected countries returns one observation per country, and an empty
selection filters to the empty list. -/
theorem C3_filter_contract_witness :
    (filtered_gdp_df
      [Obs.mk "DEU" 1960 (some 1), Obs.mk "DEU" 1961 (some 2),
       Obs.mk "FRA" 1960 (some 3)] ["DEU", "FRA"] 1960 1960).length = 2 ∧
    filtered_gdp_df
      [Obs.mk "DEU" 1960 (some 1), Obs.mk "DEU" 1961 (some 2),
       Obs.mk "FRA" 1960 (some 3)] [] 1960 1960 = [] := by
  constructor
  · exact (C3_filter_contract
      [Obs.mk "DEU" 1960 (some 1), Obs.mk "DEU" 1961 (some 2),
       Obs.mk "FRA" 1960 (some 3)] ["DEU", "FRA"] 1960 1960 1960).2.2
      (by decide) (by decide)
  · exact (C3_filter_contract
      [Obs.mk "DEU" 1960 (some 1), Obs.mk "DEU" 1961 (some 2),
       Obs.mk "FRA" 1960 (some 3)] [] 1960 1960 1960).2.1

/-! Loader claims. -/

/-- Summing a constant over a list multiplies it by the length. -/
lemma sum_map_const (l : List ℕ) (n : ℕ) :
    (l.map (fun _ => n)).sum = l.length * n := by
  induction l with
  | nil => simp
  | cons a l ih => simp [ih, Nat.succ_mul, Nat.add_comm]

/-- The year range holds 63 distinct years. -/
lemma yearsRange_length : yearsRange.length = 63 := rfl

/-- The enumerated years are pairwise distinct. -/
lemma yearsRange_nodup : yearsRange.Nodup := by
  simp [yearsRange, List.nodup_range']

/-- C5: loading a table that has every expected year column yields one
observation per (source row, year) pair: 63 observations per row, none
skipped or duplicated. -/
theorem C5_completeness (raw : RawTable)
    (h : ∀ v ∈ valueVars, raw.cols.contains v = true) :
    ∃ obs : List Obs, load_gdp_data raw = Except.ok obs ∧
      obs.length = raw.rows.length * 63 := by
  refine ⟨tidy raw, load_ok raw h, ?_⟩
  unfold tidy
  rw [List.length_flatMap]
  simp only [Function.comp_def, List.length_map]
  rw [sum_map_const, yearsRange_length, Nat.mul_comm]

/-- The all-columns-present hypothesis holds for the canonical header row
of a well-formed CSV. -/
lemma cols_ok (v : String) (hv : v ∈ valueVars) :
    (("Country Code" :: valueVars).contains v) = true := by
  simp only [List.contains_cons, Bool.or_eq_true, beq_iff_eq]
  exact Or.inr ((contains_mem_iff valueVars v).mpr hv)

/-- C5 witness: one source row produces exactly 63 observations. -/
theorem C5_completeness_witness :
    ∃ obs : List Obs,
      load_gdp_data (RawTable.mk ("Country Code" :: valueVars)
        [RawRow.mk "DEU" (fun _ => some 1)]) = Except.ok obs ∧
      obs.length = ([RawRow.mk "DEU" (fun _ => some 1)]).length * 63 :=
  C5_completeness
    (RawTable.mk ("Country Code" :: valueVars)
      [RawRow.mk "DEU" (fun _ => some 1)])
    (fun v hv => cols_ok v hv)

/-- C6: a successful load copies every cell verbatim: the observation for
each (row, year) pair carries exactly the source cell, in particular an
empty (missing) cell yields an observation whose gdp is the missing
sentinel, and every emitted observation comes from some (row, year) pair
(nothing is fabricated or coerced). -/
theorem C6_missing_propagation (raw : RawTable) (r : RawRow) (y : ℕ)
    (hcols : ∀ v ∈ valueVars, raw.cols.contains v = true)
    (hr : r ∈ raw.rows) (hy : y ∈ yearsRange) :
    ∃ obs : List Obs, load_gdp_data raw = Except.ok obs ∧
      Obs.mk r.code y (r.cells (toString y)) ∈ obs ∧
      (r.cells (toString y) = none → Obs.mk r.code y none ∈ obs) ∧
      (∀ o ∈ obs, ∃ r2 ∈ raw.rows, ∃ y2 ∈ yearsRange,
        o = Obs.mk r2.code y2 (r2.cells (toString y2))) := by
  refine ⟨tidy raw, load_ok raw hcols, ?_, ?_, ?_⟩
  · unfold tidy
    exact List.mem_flatMap.mpr ⟨y, hy, List.mem_map.mpr ⟨r, hr, rfl⟩⟩
  · intro hnone
    unfold tidy
    exact List.mem_flatMap.mpr ⟨y, hy, List.mem_map.mpr ⟨r, hr, by rw [hnone]⟩⟩
  · intro o ho
    unfold tidy at ho
    rcases List.mem_flatMap.mp ho with ⟨y2, hy2, ho2⟩
    rcases List.mem_map.mp ho2 with ⟨r2, hr2, rfl⟩
    exact ⟨r2, hr2, y2, hy2, rfl⟩

/-- C6 witness: a row whose cells are all empty yields the missing
sentinel for (XYZ, 1960). -/
theorem C6_missing_propagation_witness :
    ∃ obs : List Obs,
      load_gdp_data (RawTable.mk ("Country Code" :: valueVars)
        [RawRow.mk "XYZ" (fun _ => none)]) = Except.ok obs ∧
      Obs.mk "XYZ" 1960 none ∈ obs := by
  rcases C6_missing_propagation
      (RawTable.mk ("Country Code" :: valueVars) [RawRow.mk "XYZ" (fun _ => none)])
      (RawRow.mk "XYZ" (fun _ => none)) 1960
      (fun v hv => cols_ok v hv)
      (List.mem_cons_self _ _) (by decide) with
    ⟨obs, hload, hmem, hmiss, hall⟩
  exact ⟨obs, hload, hmiss rfl⟩

/-- C7: a table missing at least one expected year column makes the load
fail outright with the melt KeyError (the spec names this failure
MalformedSchema); no partial observation list is returned. -/
theorem C7_schema_failure (raw : RawTable)
    (h : ∃ v ∈ valueVars, ¬ raw.cols.contains v = true) :
    load_gdp_data raw = Except.error "KeyError" := by
  have hall : ¬ (valueVars.all (fun v => raw.cols.contains v) = true) := by
    rw [List.all_eq_true]
    rcases h with ⟨v, hv, hnc⟩
    exact fun hall2 => hnc (hall2 v hv)
  unfold load_gdp_data melt
  rw [if_neg hall]
  rfl

/-- C7 witness: a table with only the 1960 column fails to load. -/
theorem C7_schema_failure_witness :
    load_gdp_data (RawTable.mk ["Country Code", "1960"]
      [RawRow.mk "DEU" (fun _ => some 1)]) = Except.error "KeyError" :=
  C7_schema_failure
    (RawTable.mk ["Country Code", "1960"] [RawRow.mk "DEU" (fun _ => some 1)])
    ⟨"1961", by decide, by decide⟩

/-! The reshape-then-filter round trip. -/

/-- A flatMap collapses to a single block when every other block is
empty. -/
lemma flatMap_single (ys : List ℕ) (g : ℕ → List Obs) (y : ℕ)
    (hnd : ys.Nodup) (hy : y ∈ ys)
    (h0 : ∀ z ∈ ys, z ≠ y → g z = []) :
    ys.flatMap g = g y := by
  induction ys with
  | nil => cases hy
  | cons a ys ih =>
    rw [List.flatMap_cons]
    rcases List.mem_cons.mp hy with rfl | hy2
    · have hrest : ys.flatMap g = [] := by
        rw [List.flatMap_eq_nil_iff]
        intro z hz
        exact h0 z (List.mem_cons_of_mem _ hz)
          (fun hzy => (List.nodup_cons.mp hnd).1 (hzy ▸ hz))
      rw [hrest, List.append_nil]
    · have hane : a ≠ y := fun hay => (List.nodup_cons.mp hnd).1 (hay ▸ hy2)
      rw [h0 a (List.mem_cons_self _ _) hane, List.nil_append]
      exact ih (List.nodup_cons.mp hnd).2 hy2
        (fun z hz hzy => h0 z (List.mem_cons_of_mem _ hz) hzy)

/-- C4: reshaping a table and filtering the result down to one source
row's country and one year recovers exactly the one observation carrying
that row's cell for that year. -/
theorem C4_roundtrip (raw : RawTable) (row : RawRow) (y : ℕ)
    (hcols : ∀ v ∈ valueVars, raw.cols.contains v = true)
    (hy : y ∈ yearsRange)
    (huniq : raw.rows.filter (fun r => r.code == row.code) = [row]) :
    ∃ obs : List Obs, load_gdp_data raw = Except.ok obs ∧
      filtered_gdp_df obs [row.code] y y =
        [Obs.mk row.code y (row.cells (toString y))] := by
  refine ⟨tidy raw, load_ok raw hcols, ?_⟩
  unfold tidy filtered_gdp_df
  rw [List.filter_flatMap]
  rw [flatMap_single yearsRange _ y yearsRange_nodup hy ?hz]
  case hz =>
    intro z hz hzy
    rw [List.filter_eq_nil_iff]
    intro o ho
    rcases List.mem_map.mp ho with ⟨r, hr, rfl⟩
    simp only [Bool.and_eq_true, decide_eq_true_eq, not_and]
    intro ha h1
    exact hzy (Nat.le_antisymm h1 ha.2)
  rw [List.filter_map]
  have hpt : ∀ r ∈ raw.rows,
      (((fun o => [row.code].contains o.code && decide (y ≤ o.year) &&
          decide (o.year ≤ y)) ∘
        (fun r => Obs.mk r.code y (r.cells (toString y)))) r) =
      (r.code == row.code) := by
    intro r hr
    simp only [Function.comp_def, List.contains_cons]
    cases hb : r.code == row.code <;> simp [hb]
  rw [List.filter_congr hpt, huniq]
  rfl

/-- C4 witness: a one-row table round-trips the cell (DEU, 1960) = 5. -/
theorem C4_roundtrip_witness :
    ∃ obs : List Obs,
      load_gdp_data (RawTable.mk ("Country Code" :: valueVars)
        [RawRow.mk "DEU" (fun s => if s = "1960" then some 5 else some 7)]) =
        Except.ok obs ∧
      filtered_gdp_df obs ["DEU"] 1960 1960 =
        [Obs.mk "DEU" 1960 (some 5)] :=
  C4_roundtrip
    (RawTable.mk ("Country Code" :: valueVars)
      [RawRow.mk "DEU" (fun s => if s = "1960" then some 5 else some 7)])
    (RawRow.mk "DEU" (fun s => if s = "1960" then some 5 else some 7))
    1960 (fun v hv => cols_ok v hv) (by decide) rfl

/-! The metric loop: abort behavior and independence from the filter. -/

/-- A metric failure for any selected country aborts the whole loop. -/
lemma renderMetrics_error (gdp : List Obs) (fy ty : ℕ) :
    ∀ (sel : List String) (c : String), c ∈ sel →
    (∃ e, computeMetric gdp c fy ty = Except.error e) →
    ∃ e2, renderMetrics gdp sel fy ty = Except.error e2 := by
  intro sel
  induction sel with
  | nil =>
    intro c hc
    cases hc
  | cons a rest ih =>
    intro c hc he
    rcases he with ⟨e, he⟩
    cases hm : computeMetric gdp a fy ty with
    | error e3 => exact ⟨e3, by simp [renderMetrics, hm]⟩
    | ok m =>
      rcases List.mem_cons.mp hc with rfl | hc2
      · rw [hm] at he
        exact Except.noConfusion he
      · rcases ih c hc2 ⟨e, he⟩ with ⟨e2, h2⟩
        refine ⟨e2, ?_⟩
        simp only [renderMetrics, hm, h2]
        rfl

/-- A successful loop returns, in order, the metric computed from the
full table for each selected country. -/
lemma renderMetrics_ok_get (gdp : List Obs) (fy ty : ℕ) :
    ∀ (sel : List String) (ms : List Metric),
    renderMetrics gdp sel fy ty = Except.ok ms →
    ms.length = sel.length ∧
    ∀ i (hi : i < sel.length) (hi2 : i < ms.length),
      computeMetric gdp (sel.get ⟨i, hi⟩) fy ty =
        Except.ok (ms.get ⟨i, hi2⟩) := by
  intro sel
  induction sel with
  | nil =>
    intro ms h
    simp only [renderMetrics, Except.ok.injEq] at h
    subst h
    exact ⟨rfl, fun i hi _ => absurd hi (by simp)⟩
  | cons a rest ih =>
    intro ms h
    simp only [renderMetrics] at h
    cases hm : computeMetric gdp a fy ty with
    | error e =>
      rw [hm] at h
      exact Except.noConfusion h
    | ok m =>
      rw [hm] at h
      cases hr : renderMetrics gdp rest fy ty with
      | error e =>
        rw [hr] at h
        exact Except.noConfusion h
      | ok ms2 =>
        rw [hr] at h
        simp only [Except.map, Except.ok.injEq] at h
        subst h
        rcases ih ms2 hr with ⟨hlen, hget⟩
        refine ⟨by simp [hlen], ?_⟩
        intro i hi hi2
        cases i with
        | zero => simpa using hm
        | succ n =>
          have hn : n < rest.length := by simpa using hi
          have hn2 : n < ms2.length := by simpa using hi2
          simpa using hget n hn hn2

/-- C8 counterexample: with observations for ABC only, selecting XYZ then
ABC makes the whole rendering pass fail with the uncaught IndexError; no
metric list is produced, so the remaining country's metric is not
produced and nothing is rendered as N/A. -/
theorem C8_counterexample :
    renderMetrics [Obs.mk "ABC" 1960 (some 100), Obs.mk "ABC" 2022 (some 200)]
      ["XYZ", "ABC"] 1960 2022 = Except.error "IndexError" ∧
    ∀ ms : List Metric,
      renderMetrics [Obs.mk "ABC" 1960 (some 100), Obs.mk "ABC" 2022 (some 200)]
        ["XYZ", "ABC"] 1960 2022 ≠ Except.ok ms := by
  refine ⟨rfl, fun ms h => ?_⟩
  rw [show renderMetrics
      [Obs.mk "ABC" 1960 (some 100), Obs.mk "ABC" 2022 (some 200)]
      ["XYZ", "ABC"] 1960 2022 = Except.error "IndexError" from rfl] at h
  exact Except.noConfusion h

/-- C8 amended: when no observation row matches a selected country at a
boundary year, the metric computation fails with the IndexError, and the
uncaught failure aborts the whole rendering pass: the loop returns an
error, so no metric card — N/A or otherwise — is produced for any
country. -/
theorem C8_missing_observation (gdp : List Obs) (sel : List String)
    (fy ty : ℕ) (c : String)
    (h1 : gdpAt (year_data gdp fy) c = Except.error "IndexError" ∨
      (∃ fv, gdpAt (year_data gdp fy) c = Except.ok fv ∧
        gdpAt (year_data gdp ty) c = Except.error "IndexError"))
    (h2 : c ∈ sel) :
    computeMetric gdp c fy ty = Except.error "IndexError" ∧
    ∃ e, renderMetrics gdp sel fy ty = Except.error e := by
  have hcm : computeMetric gdp c fy ty = Except.error "IndexError" := by
    rcases h1 with h | ⟨fv, hf, hl⟩
    · exact computeMetric_error_first gdp c fy ty _ h
    · exact computeMetric_error_second gdp c fy ty fv _ hf hl
  exact ⟨hcm, renderMetrics_error gdp fy ty sel c h2 ⟨_, hcm⟩⟩

/-- C8 amended witness: the missing (XYZ, 1960) row fails its own metric
and aborts the pass over the selection XYZ, ABC. -/
theorem C8_missing_observation_witness :
    computeMetric [Obs.mk "ABC" 1960 (some 100), Obs.mk "ABC" 2022 (some 200)]
      "XYZ" 1960 2022 = Except.error "IndexError" ∧
    ∃ e, renderMetrics
      [Obs.mk "ABC" 1960 (some 100), Obs.mk "ABC" 2022 (some 200)]
      ["XYZ", "ABC"] 1960 2022 = Except.error e :=
  C8_missing_observation
    [Obs.mk "ABC" 1960 (some 100), Obs.mk "ABC" 2022 (some 200)]
    ["XYZ", "ABC"] 1960 2022 "XYZ" (Or.inl rfl) (by decide)

/-- C9: the growth metric of a country depends only on the full table and
the boundary years, never on the current country selection: whatever two
selections both include the country, the rendered metric at its position
is the one computeMetric yields from the full table, hence identical. -/
theorem C9_full_table (gdp : List Obs) (selA selB : List String)
    (fy ty : ℕ) (c : String) (i j : ℕ) (msA msB : List Metric)
    (hA : renderMetrics gdp selA fy ty = Except.ok msA)
    (hB : renderMetrics gdp selB fy ty = Except.ok msB)
    (hiA : i < selA.length) (hjB : j < selB.length)
    (hciA : selA.get ⟨i, hiA⟩ = c) (hcjB : selB.get ⟨j, hjB⟩ = c) :
    ∃ m : Metric, computeMetric gdp c fy ty = Except.ok m ∧
      (∃ hi2 : i < msA.length, msA.get ⟨i, hi2⟩ = m) ∧
      (∃ hj2 : j < msB.length, msB.get ⟨j, hj2⟩ = m) := by
  rcases renderMetrics_ok_get gdp fy ty selA msA hA with ⟨hlenA, hgetA⟩
  rcases renderMetrics_ok_get gdp fy ty selB msB hB with ⟨hlenB, hgetB⟩
  have hi2 : i < msA.length := hlenA ▸ hiA
  have hj2 : j < msB.length := hlenB ▸ hjB
  have h1 := hgetA i hiA hi2
  have h2 := hgetB j hjB hj2
  rw [hciA] at h1
  rw [hcjB] at h2
  refine ⟨msA.get ⟨i, hi2⟩, h1, ⟨hi2, rfl⟩, ⟨hj2, ?_⟩⟩
  have h3 := h1.symm.trans h2
  exact (Except.ok.inj h3).symm

/-- C9 witness: selecting AAA and BBB, or BBB alone, renders the same
metric for BBB, computed from the full four-observation table. -/
theorem C9_full_table_witness :
    ∃ m : Metric,
      computeMetric
        [Obs.mk "AAA" 1960 (some 100), Obs.mk "AAA" 2022 (some 200),
         Obs.mk "BBB" 1960 (some 100), Obs.mk "BBB" 2022 (some 300)]
        "BBB" 1960 2022 = Except.ok m ∧
      (∃ hi2 : 1 < ([Metric.mk "AAA GDP" "0B USD" "2.00x",
          Metric.mk "BBB GDP" "0B USD" "3.00x"] : List Metric).length,
        ([Metric.mk "AAA GDP" "0B USD" "2.00x",
          Metric.mk "BBB GDP" "0B USD" "3.00x"] : List Metric).get ⟨1, hi2⟩ = m) ∧
      (∃ hj2 : 0 < ([Metric.mk "BBB GDP" "0B USD" "3.00x"] : List Metric).length,
        ([Metric.mk "BBB GDP" "0B USD" "3.00x"] : List Metric).get ⟨0, hj2⟩ = m) := by
  have hAAA : computeMetric
      [Obs.mk "AAA" 1960 (some 100), Obs.mk "AAA" 2022 (some 200),
       Obs.mk "BBB" 1960 (some 100), Obs.mk "BBB" 2022 (some 300)]
      "AAA" 1960 2022 = Except.ok (Metric.mk "AAA GDP" "0B USD" "2.00x") := by
    rw [computeMetric_eq [Obs.mk "AAA" 1960 (some 100), Obs.mk "AAA" 2022 (some 200),
       Obs.mk "BBB" 1960 (some 100), Obs.mk "BBB" 2022 (some 300)] "AAA" 1960 2022 (some 100) (some 200) rfl rfl]
    rw [show toPyF (some (100 : ℚ)) = PyF.fin 100 from rfl,
      show toPyF (some (200 : ℚ)) = PyF.fin 200 from rfl,
      pyDiv_fin_scale, pyDiv_fin_scale]
    rw [if_neg (fin_ne_nan _)]
    rw [pyDiv_cancel 100 200 (by norm_num)]
    rw [fmtB_small ((200 : ℚ) / 10 ^ 9) (by positivity) (by norm_num)]
    rw [fmt2x_eval ((200 : ℚ) / 100) 200 (by norm_num)]
    rfl
  have hBBB : computeMetric
      [Obs.mk "AAA" 1960 (some 100), Obs.mk "AAA" 2022 (some 200),
       Obs.mk "BBB" 1960 (some 100), Obs.mk "BBB" 2022 (some 300)]
      "BBB" 1960 2022 = Except.ok (Metric.mk "BBB GDP" "0B USD" "3.00x") := by
    rw [computeMetric_eq [Obs.mk "AAA" 1960 (some 100), Obs.mk "AAA" 2022 (some 200),
       Obs.mk "BBB" 1960 (some 100), Obs.mk "BBB" 2022 (some 300)] "BBB" 1960 2022 (some 100) (some 300) rfl rfl]
    rw [show toPyF (some (100 : ℚ)) = PyF.fin 100 from rfl,
      show toPyF (some (300 : ℚ)) = PyF.fin 300 from rfl,
      pyDiv_fin_scale, pyDiv_fin_scale]
    rw [if_neg (fin_ne_nan _)]
    rw [pyDiv_cancel 100 300 (by norm_num)]
    rw [fmtB_small ((300 : ℚ) / 10 ^ 9) (by positivity) (by norm_num)]
    rw [fmt2x_eval ((300 : ℚ) / 100) 300 (by norm_num)]
    rfl
  have hA : renderMetrics
      [Obs.mk "AAA" 1960 (some 100), Obs.mk "AAA" 2022 (some 200),
       Obs.mk "BBB" 1960 (some 100), Obs.mk "BBB" 2022 (some 300)]
      ["AAA", "BBB"] 1960 2022 =
      Except.ok [Metric.mk "AAA GDP" "0B USD" "2.00x",
        Metric.mk "BBB GDP" "0B USD" "3.00x"] := by
    simp only [renderMetrics, hAAA, hBBB]
    rfl
  have hB : renderMetrics
      [Obs.mk "AAA" 1960 (some 100), Obs.mk "AAA" 2022 (some 200),
       Obs.mk "BBB" 1960 (some 100), Obs.mk "BBB" 2022 (some 300)]
      ["BBB"] 1960 2022 =
      Except.ok [Metric.mk "BBB GDP" "0B USD" "3.00x"] := by
    simp only [renderMetrics, hBBB]
    rfl
  exact C9_full_table
    [Obs.mk "AAA" 1960 (some 100), Obs.mk "AAA" 2022 (some 200),
     Obs.mk "BBB" 1960 (some 100), Obs.mk "BBB" 2022 (some 300)]
    ["AAA", "BBB"] ["BBB"] 1960 2022 "BBB" 1 0 _ _ hA hB
    (by decide) (by decide) rfl rfl
